import Mathlib

/-!
# Verification of the bun-mococa authentication / payment core

Shallow embedding of the session store (`src/services/auth/sessions.ts`,
class `SessionManager`), the authorization middlewares
(`src/middlewares/auth.ts`, `src/middlewares/active.ts`), the OAuth
coordinator (`src/services/auth/oauth.ts`, class `OAuthManager`) and the
payment poller (`src/services/payments/abacatepay.ts`, class `Abacate`).

Time is modelled as milliseconds since the epoch (`Nat`), matching
`Date.now()`.  The Redis backing store is modelled as an association list
from keys to values together with the absolute expiry (`EXAT`, unix
seconds) that the code passes on every `set`.  Randomness
(`generateSessionId`) is modelled by passing the fresh token as an
argument.  Network calls (`fetch`) are modelled as oracle functions passed
as arguments.
-/

namespace BunMococa

/-! ## Enums (src/services/enums/enums.ts) -/

/-- `UserRole` enum: `ADMIN = 'admin'`, `USER = 'user'`. -/
inductive UserRole
  | admin
  | user
deriving DecidableEq, Repr

/-- `UserStatus` enum: `ACTIVE = 'active'`, `INACTIVE = 'inactive'`, `BANNED = 'banned'`;
the same three string literals appear in the `SessionData` type. -/
inductive UserStatus
  | active
  | inactive
  | banned
deriving DecidableEq, Repr

/-- `Provider` enum: `GOOGLE = 'google'`, `GITHUB = 'github'`, `DISCORD = 'discord'`. -/
inductive Provider
  | google
  | github
  | discord
deriving DecidableEq, Repr

/-! ## Session data (src/types/types.ts) -/

/-- `SessionData`: the JSON value stored in Redis for a session.
`exp` is an absolute timestamp in milliseconds. -/
structure SessionData where
  userId : String
  role : UserRole
  status : UserStatus
  exp : Nat
deriving DecidableEq, Repr

/-! ## Redis model

The code stores each session with `client.set(key, json, "EXAT",
Math.floor(exp / 1000))`: the key expires at that absolute unix second.
We keep the value and its `EXAT` second together; a key is live at time
`now` (ms) exactly while `now < exat * 1000`. -/

/-- A value in the Redis model together with its absolute expiry (unix seconds). -/
structure StoredSession where
  value : SessionData
  exat : Nat
deriving DecidableEq, Repr

/-- The session keyspace of the Redis store: association list keyed by session id. -/
abbrev SessionStore := List (String × StoredSession)

/-- `client.set(key, v, "EXAT", exat)`: overwrite the key. -/
def redisSet (store : SessionStore) (key : String) (v : StoredSession) : SessionStore :=
  (key, v) :: store.filter (fun e => e.1 ≠ key)

/-- `client.get(key)` at time `now`: Redis returns null once the `EXAT`
second has been reached. -/
def redisLiveGet (store : SessionStore) (now : Nat) (key : String) : Option StoredSession :=
  match store.lookup key with
  | none => none
  | some e => if now < e.exat * 1000 then some e else none

/-! ## SessionManager (src/services/auth/sessions.ts) -/

/-- 24 hours in milliseconds: `24 * 60 * 60 * 1000` from `createSession`/`refreshSession`. -/
def sessionTTLms : Nat := 24 * 60 * 60 * 1000

/-- `SessionManager.createSession({ userId, role, status })`.
The generated `sess:<32 hex>` token is passed in as `sessionId` (the code
draws it from `crypto.getRandomValues`).  `status` is optional and
defaults per `status || 'active'`; `exp = Date.now() + 24h`; the value is
written with `EXAT Math.floor(exp / 1000)` and the token returned. -/
def createSession (store : SessionStore) (now : Nat) (sessionId : String)
    (userId : String) (role : UserRole) (status : Option UserStatus) :
    SessionStore × String :=
  let sessionData : SessionData :=
    { userId := userId
      role := role
      status := status.getD .active
      exp := now + sessionTTLms }
  (redisSet store sessionId ⟨sessionData, sessionData.exp / 1000⟩, sessionId)

/-- `SessionManager.getSession(sessionId)`: `get` then JSON-parse; a null
result is returned as null (errors are also swallowed to null). -/
def getSession (store : SessionStore) (now : Nat) (sessionId : String) :
    Option SessionData :=
  (redisLiveGet store now sessionId).map (·.value)

/-- `SessionManager.deleteSession(sessionId)`: unconditional `del`. -/
def deleteSession (store : SessionStore) (sessionId : String) : SessionStore :=
  store.filter (fun e => e.1 ≠ sessionId)

/-- `SessionManager.refreshSession(sessionId)`: re-reads the session; if
absent, returns without writing; otherwise sets `exp = Date.now() + 24h`
and rewrites the value with the matching `EXAT`. -/
def refreshSession (store : SessionStore) (now : Nat) (sessionId : String) :
    SessionStore :=
  match getSession store now sessionId with
  | none => store
  | some sessionData =>
    let sessionData' : SessionData := { sessionData with exp := now + sessionTTLms }
    redisSet store sessionId ⟨sessionData', sessionData'.exp / 1000⟩

/-! ## Handler calls to createSession (src/handlers/public/auth.ts)

Both the OAuth callback handler and the password-login handler call
`services.auth.sessions.createSession({ userId: 1, role: UserRole.USER })`
with no `status` field. -/

/-- The `createSession` call made by `GET /auth/oauth/callback/:provider`. -/
def oauthCallbackCreateSession (store : SessionStore) (now : Nat) (sessionId : String) :
    SessionStore × String :=
  createSession store now sessionId "1" .user none

/-- The `createSession` call made by `POST /auth/login`. -/
def loginCreateSession (store : SessionStore) (now : Nat) (sessionId : String) :
    SessionStore × String :=
  createSession store now sessionId "1" .user none

/-! ## Basic store lemmas -/

theorem redisLiveGet_redisSet_self (store : SessionStore) (now : Nat) (key : String)
    (v : StoredSession) :
    redisLiveGet (redisSet store key v) now key =
      if now < v.exat * 1000 then some v else none := by
  simp [redisLiveGet, redisSet, List.lookup]

theorem fresh_exat_live (now : Nat) : now < ((now + sessionTTLms) / 1000) * 1000 := by
  have h1 : 1000 * ((now + sessionTTLms) / 1000) + (now + sessionTTLms) % 1000
      = now + sessionTTLms := Nat.div_add_mod _ _
  have h2 : (now + sessionTTLms) % 1000 < 1000 := Nat.mod_lt _ (by norm_num)
  have h3 : sessionTTLms = 86400000 := by norm_num [sessionTTLms]
  omega

theorem getSession_createSession (store : SessionStore) (now : Nat) (sessionId : String)
    (userId : String) (role : UserRole) (status : Option UserStatus) :
    getSession (createSession store now sessionId userId role status).1 now sessionId =
      some { userId := userId, role := role, status := status.getD .active
             exp := now + sessionTTLms } := by
  simp [getSession, createSession, redisLiveGet_redisSet_self, fresh_exat_live]

/-- Claim C4: for all `(userId, role, status)`, `createSession` immediately followed by
`getSession` on the returned session id yields a session with the same
`userId`, `role` and `status`, whose expiry is exactly `now + 24h`
(well within the spec's tolerance of seconds). -/
theorem create_then_get_roundtrip (store : SessionStore) (now : Nat) (sessionId : String)
    (userId : String) (role : UserRole) (status : UserStatus) :
    getSession (createSession store now sessionId userId role (some status)).1
        now (createSession store now sessionId userId role (some status)).2 =
      some { userId := userId, role := role, status := status
             exp := now + 24 * 60 * 60 * 1000 } := by
  simpa [createSession, sessionTTLms] using
    getSession_createSession store now sessionId userId role (some status)

/-- Claim C10: a `createSession` call with the `status` argument omitted stores a session
with status `active`; in particular the sessions created by the OAuth callback
handler and the password-login handler (which pass no status) are `active`. -/
theorem createSession_default_status_active (store : SessionStore) (now : Nat)
    (sessionId : String) (userId : String) (role : UserRole) :
    getSession (createSession store now sessionId userId role none).1 now sessionId =
      some { userId := userId, role := role, status := .active
             exp := now + sessionTTLms } ∧
    getSession (oauthCallbackCreateSession store now sessionId).1 now sessionId =
      some { userId := "1", role := .user, status := .active
             exp := now + sessionTTLms } ∧
    getSession (loginCreateSession store now sessionId).1 now sessionId =
      some { userId := "1", role := .user, status := .active
             exp := now + sessionTTLms } := by
  refine ⟨?_, ?_, ?_⟩ <;>
    simpa [oauthCallbackCreateSession, loginCreateSession] using
      getSession_createSession store now sessionId _ _ none

/-- Claim C5: `refreshSession` is a no-op on an absent session (it does not create one);
on a present session it rewrites it with `exp = now + 24h`, leaving `userId`,
`role` and `status` unchanged, and when the prior expiry predates `now + 24h`
(i.e. the session was last written strictly before `now`) the expiry strictly
increases. -/
theorem refreshSession_spec (store : SessionStore) (now : Nat) (sessionId : String) :
    (getSession store now sessionId = none → refreshSession store now sessionId = store) ∧
    (∀ d : SessionData, getSession store now sessionId = some d →
      getSession (refreshSession store now sessionId) now sessionId =
        some { userId := d.userId, role := d.role, status := d.status
               exp := now + sessionTTLms } ∧
      (d.exp < now + sessionTTLms →
        ∀ d' : SessionData,
          getSession (refreshSession store now sessionId) now sessionId = some d' →
          d.exp < d'.exp)) := by
  constructor
  · intro h
    simp only [refreshSession, h]
  · intro d hd
    have hget : getSession (refreshSession store now sessionId) now sessionId =
        some { userId := d.userId, role := d.role, status := d.status
               exp := now + sessionTTLms } := by
      simp only [refreshSession, hd]
      simp [getSession, redisLiveGet_redisSet_self, fresh_exat_live]
    refine ⟨hget, ?_⟩
    intro hlt d' hd'
    rw [hget] at hd'
    cases hd'
    simpa using hlt

/-! ## Middlewares (src/middlewares/auth.ts, src/middlewares/active.ts)

`authMiddleware` extracts the token via
`context.headers['authorization']?.replace('Bearer ', '')`.  JavaScript's
`String.replace` with a string pattern replaces only the first
occurrence; `replaceFirst` models that. -/

/-- Replace the first occurrence of `pat` in the character list. -/
def replaceFirstAux (pat repl : List Char) : List Char → List Char
  | [] => []
  | c :: cs =>
    if pat.isPrefixOf (c :: cs) then repl ++ (c :: cs).drop pat.length
    else c :: replaceFirstAux pat repl cs

/-- JavaScript `s.replace(pat, repl)` for string patterns: first occurrence only. -/
def replaceFirst (s pat repl : String) : String :=
  ⟨replaceFirstAux pat.data repl.data s.data⟩

/-- Outcome of `authMiddleware`: `authError` models a thrown `AuthError`
(`status = 401`), `bannedError` a thrown `BannedUserError` (`status = 403`),
and `ok` the normal return that decorates the context with
`userId`/`role`/`status`/`sessionId` (the route logic then runs). -/
inductive AuthOutcome
  | authError (message : String)
  | bannedError (message : String)
  | ok (userId : String) (role : UserRole) (status : UserStatus) (sessionId : String)
deriving DecidableEq, Repr

/-- HTTP status of an `authMiddleware` outcome: the error classes carry
`status: number = 401` (`AuthError`) and `403` (`BannedUserError`); a
normal return lets the route answer `200`. -/
def AuthOutcome.httpStatus : AuthOutcome → Nat
  | .authError _ => 401
  | .bannedError _ => 403
  | .ok _ _ _ _ => 200

/-- `authMiddleware(ctx)`: strip `'Bearer '` from the authorization header
(absent header, or an empty result, is falsy and throws `AuthError`);
look the session up; throw `AuthError` if absent; throw `BannedUserError`
if `sessionData.status === 'banned'`; otherwise refresh the session and
decorate the context.  The returned store reflects the writes performed. -/
def authMiddleware (store : SessionStore) (now : Nat)
    (authorizationHeader : Option String) : AuthOutcome × SessionStore :=
  match authorizationHeader.map (fun h => replaceFirst h "Bearer " "") with
  | none => (.authError "No session token provided", store)
  | some sessionId =>
    if sessionId = "" then (.authError "No session token provided", store)
    else
      match getSession store now sessionId with
      | none => (.authError "Invalid or expired session", store)
      | some sessionData =>
        if sessionData.status = .banned then
          (.bannedError "Your account has been banned. Please contact support.", store)
        else
          (.ok sessionData.userId sessionData.role sessionData.status sessionId,
           refreshSession store now sessionId)

/-- Outcome of `activeUserMiddleware`: `inactiveError` models a thrown
`InactiveUserError` (`status = 403`); `ok` the normal return. -/
inductive ActiveOutcome
  | inactiveError (message : String)
  | ok
deriving DecidableEq, Repr

/-- `activeUserMiddleware(context)`: re-reads the session from the store by
`ctx.sessionId`, throws `InactiveUserError` if it is gone or if
`sessionData.status === 'inactive'`. -/
def activeUserMiddleware (store : SessionStore) (now : Nat) (sessionId : String) :
    ActiveOutcome :=
  match getSession store now sessionId with
  | none => .inactiveError "Session not found"
  | some sessionData =>
    if sessionData.status = .inactive then
      .inactiveError
        "Your account is inactive. You cannot perform this action. Please contact support."
    else .ok

/-- Claim C1: for every request whose authorization header resolves to a session
whose status is `banned`, `authMiddleware` throws the 403 `BannedUserError`,
whatever the session's role, and the store is left untouched — in particular
the session is not refreshed, and no `ok` outcome ever reaches route logic. -/
theorem authMiddleware_banned_forbidden (store : SessionStore) (now : Nat)
    (header sessionId : String) (d : SessionData)
    (hstrip : replaceFirst header "Bearer " "" = sessionId)
    (hne : sessionId ≠ "")
    (hget : getSession store now sessionId = some d)
    (hban : d.status = .banned) :
    authMiddleware store now (some header) =
      (.bannedError "Your account has been banned. Please contact support.", store) ∧
    (authMiddleware store now (some header)).1.httpStatus = 403 := by
  subst hstrip
  have h : authMiddleware store now (some header) =
      (.bannedError "Your account has been banned. Please contact support.", store) := by
    simp [authMiddleware, hne, hget, hban]
  exact ⟨h, by rw [h]; rfl⟩

/-- Claim C6: a session with status `inactive` passes `authMiddleware`
(which refreshes it and decorates the context), but `activeUserMiddleware`,
re-reading the session from the (refreshed) store, throws the 403
`InactiveUserError`. -/
theorem inactive_passes_auth_fails_active (store : SessionStore) (now : Nat)
    (header sessionId : String) (d : SessionData)
    (hstrip : replaceFirst header "Bearer " "" = sessionId)
    (hne : sessionId ≠ "")
    (hget : getSession store now sessionId = some d)
    (hst : d.status = .inactive) :
    authMiddleware store now (some header) =
      (.ok d.userId d.role .inactive sessionId, refreshSession store now sessionId) ∧
    activeUserMiddleware (authMiddleware store now (some header)).2 now sessionId =
      .inactiveError
        "Your account is inactive. You cannot perform this action. Please contact support." := by
  subst hstrip
  have hauth : authMiddleware store now (some header) =
      (.ok d.userId d.role .inactive (replaceFirst header "Bearer " ""),
        refreshSession store now (replaceFirst header "Bearer " "")) := by
    simp [authMiddleware, hne, hget, hst]
  refine ⟨hauth, ?_⟩
  rw [hauth]
  have hget' := ((refreshSession_spec store now (replaceFirst header "Bearer " "")).2 d hget).1
  simp only [activeUserMiddleware, hget']
  simp [hst]

/-! ## Payment poller (src/services/payments/abacatepay.ts, class `Abacate`)

The ledger is the `abacate:payments:*` keyspace of Redis: each key holds a
JSON `Payment {id, code}`.  `poll()` enumerates the keys, reads each entry
and asks the provider (`checkQRStatus`, which throws when the provider
reports an error) for `{status, expiresAt}`.  The provider is modelled as
an oracle from payment id to a reply; the current time stands for
`Date.now()`, and `expiresAt` for `new Date(expiresAt).getTime()`. -/

/-- The `Payment {id, code}` record kept in the ledger. -/
structure Payment where
  id : String
  code : String
deriving DecidableEq, Repr

/-- Reply of `checkQRStatus({id})`: `err` when the SDK returns an `error`
(or the call fails) so that the method throws; otherwise the reported
status string and the expiry instant in milliseconds. -/
inductive ProviderReply
  | err
  | ok (status : String) (expiresAtMs : Nat)
deriving DecidableEq, Repr

/-- The payment ledger: the `abacate:payments:*` keys with their values. -/
abbrev Ledger := List (String × Payment)

/-- The terminal-failure statuses: `['EXPIRED', 'CANCELLED', 'REFUNDED']`. -/
def terminalStatuses : List String := ["EXPIRED", "CANCELLED", "REFUNDED"]

/-- Result of one `poll()` run: the pushed `successes`/`failures`/`pending`
arrays (only the first two are returned to the caller) and the ledger as
left in Redis after the per-entry `del`s. -/
structure PollResult where
  successes : List Payment
  failures : List Payment
  pending : List Payment
  ledger : Ledger
deriving DecidableEq, Repr

/-- `Abacate.poll()`: for each ledger entry, under a per-entry `try`:
query the provider; on a terminal status push to `failures` and delete;
else if `Date.now()` is past `expiresAt` push to `failures` and delete;
else if the status is not `'PAID'` push to `pending` and keep the entry;
else push to `successes` and delete.  A thrown per-entry error is caught
and logged (`console.error`), leaving the entry in place. -/
def poll (check : String → ProviderReply) (now : Nat) : Ledger → PollResult
  | [] => { successes := [], failures := [], pending := [], ledger := [] }
  | (key, payment) :: rest =>
    let r := poll check now rest
    match check payment.id with
    | .err => { r with ledger := (key, payment) :: r.ledger }
    | .ok status expiresAt =>
      if status ∈ terminalStatuses then
        { r with failures := payment :: r.failures }
      else if expiresAt < now then
        { r with failures := payment :: r.failures }
      else if status ≠ "PAID" then
        { r with pending := payment :: r.pending, ledger := (key, payment) :: r.ledger }
      else
        { r with successes := payment :: r.successes }

/-- The classification `poll` applies to a single entry, read off the same
branch structure. -/
inductive EntryClass
  | success
  | failure
  | pending
  | errored
deriving DecidableEq, Repr

/-- Classification of one payment by the poll loop's branches. -/
def classifyEntry (check : String → ProviderReply) (now : Nat) (p : Payment) : EntryClass :=
  match check p.id with
  | .err => .errored
  | .ok status expiresAt =>
    if status ∈ terminalStatuses then .failure
    else if expiresAt < now then .failure
    else if status ≠ "PAID" then .pending
    else .success

theorem poll_cons (check : String → ProviderReply) (now : Nat) (key : String)
    (payment : Payment) (rest : Ledger) :
    poll check now ((key, payment) :: rest) =
      match classifyEntry check now payment with
      | .success =>
        { poll check now rest with successes := payment :: (poll check now rest).successes }
      | .failure =>
        { poll check now rest with failures := payment :: (poll check now rest).failures }
      | .pending =>
        { poll check now rest with pending := payment :: (poll check now rest).pending
                                   ledger := (key, payment) :: (poll check now rest).ledger }
      | .errored =>
        { poll check now rest with ledger := (key, payment) :: (poll check now rest).ledger } := by
  simp only [poll, classifyEntry]
  cases h : check payment.id with
  | err => rfl
  | ok status expiresAt =>
    by_cases h1 : status ∈ terminalStatuses
    · simp [h1]
    · by_cases h2 : expiresAt < now
      · simp [h1, h2]
      · by_cases h3 : status = "PAID"
        · subst h3
          simp [h2, terminalStatuses]
        · simp [h1, h2, h3]

theorem poll_successes_eq (check : String → ProviderReply) (now : Nat) (ledger : Ledger) :
    (poll check now ledger).successes =
      (ledger.filter (fun e => classifyEntry check now e.2 == .success)).map Prod.snd := by
  induction ledger with
  | nil => rfl
  | cons e rest ih =>
    obtain ⟨key, payment⟩ := e
    rw [poll_cons]
    cases hcl : classifyEntry check now payment <;>
      simp [List.filter_cons, hcl, ih]

theorem poll_failures_eq (check : String → ProviderReply) (now : Nat) (ledger : Ledger) :
    (poll check now ledger).failures =
      (ledger.filter (fun e => classifyEntry check now e.2 == .failure)).map Prod.snd := by
  induction ledger with
  | nil => rfl
  | cons e rest ih =>
    obtain ⟨key, payment⟩ := e
    rw [poll_cons]
    cases hcl : classifyEntry check now payment <;>
      simp [List.filter_cons, hcl, ih]

theorem poll_pending_eq (check : String → ProviderReply) (now : Nat) (ledger : Ledger) :
    (poll check now ledger).pending =
      (ledger.filter (fun e => classifyEntry check now e.2 == .pending)).map Prod.snd := by
  induction ledger with
  | nil => rfl
  | cons e rest ih =>
    obtain ⟨key, payment⟩ := e
    rw [poll_cons]
    cases hcl : classifyEntry check now payment <;>
      simp [List.filter_cons, hcl, ih]

theorem poll_ledger_eq (check : String → ProviderReply) (now : Nat) (ledger : Ledger) :
    (poll check now ledger).ledger =
      ledger.filter (fun e =>
        classifyEntry check now e.2 == .pending || classifyEntry check now e.2 == .errored) := by
  induction ledger with
  | nil => rfl
  | cons e rest ih =>
    obtain ⟨key, payment⟩ := e
    rw [poll_cons]
    cases hcl : classifyEntry check now payment <;>
      simp [List.filter_cons, hcl, ih]

theorem mem_poll_successes_iff (check : String → ProviderReply) (now : Nat)
    (ledger : Ledger) (p : Payment) :
    p ∈ (poll check now ledger).successes ↔
      ∃ key, (key, p) ∈ ledger ∧ classifyEntry check now p = .success := by
  rw [poll_successes_eq]
  constructor
  · rintro hp
    obtain ⟨e, he, rfl⟩ := List.mem_map.mp hp
    obtain ⟨hmem, hcl⟩ := List.mem_filter.mp he
    exact ⟨e.1, hmem, by simpa using hcl⟩
  · rintro ⟨key, hmem, hcl⟩
    exact List.mem_map.mpr ⟨(key, p), List.mem_filter.mpr ⟨hmem, by simpa using hcl⟩, rfl⟩

theorem mem_poll_failures_iff (check : String → ProviderReply) (now : Nat)
    (ledger : Ledger) (p : Payment) :
    p ∈ (poll check now ledger).failures ↔
      ∃ key, (key, p) ∈ ledger ∧ classifyEntry check now p = .failure := by
  rw [poll_failures_eq]
  constructor
  · rintro hp
    obtain ⟨e, he, rfl⟩ := List.mem_map.mp hp
    obtain ⟨hmem, hcl⟩ := List.mem_filter.mp he
    exact ⟨e.1, hmem, by simpa using hcl⟩
  · rintro ⟨key, hmem, hcl⟩
    exact List.mem_map.mpr ⟨(key, p), List.mem_filter.mpr ⟨hmem, by simpa using hcl⟩, rfl⟩

theorem mem_poll_ledger_iff (check : String → ProviderReply) (now : Nat)
    (ledger : Ledger) (key : String) (p : Payment) :
    (key, p) ∈ (poll check now ledger).ledger ↔
      (key, p) ∈ ledger ∧
        (classifyEntry check now p = .pending ∨ classifyEntry check now p = .errored) := by
  rw [poll_ledger_eq]
  rw [List.mem_filter]
  constructor
  · rintro ⟨hmem, hcl⟩
    refine ⟨hmem, ?_⟩
    simpa using hcl
  · rintro ⟨hmem, hcl⟩
    refine ⟨hmem, ?_⟩
    simpa using hcl

/-- Claim C2: for every ledger entry examined by `poll`: a provider status in
`{EXPIRED, CANCELLED, REFUNDED}` classifies it as failure and removes it; a
non-terminal status whose `expiresAt` lies in the past (even `PENDING`)
classifies it as failure and removes it; a non-terminal, unexpired status
other than `PAID` leaves the entry in the ledger, in neither result list;
and an unexpired `PAID` status classifies it as success and removes it. -/
theorem poll_entry_classification (check : String → ProviderReply) (now : Nat)
    (ledger : Ledger) (key : String) (p : Payment)
    (status : String) (expiresAt : Nat)
    (hmem : (key, p) ∈ ledger)
    (hchk : check p.id = .ok status expiresAt) :
    (status ∈ terminalStatuses →
      p ∈ (poll check now ledger).failures ∧ (key, p) ∉ (poll check now ledger).ledger) ∧
    (status ∉ terminalStatuses → now > expiresAt →
      p ∈ (poll check now ledger).failures ∧ (key, p) ∉ (poll check now ledger).ledger) ∧
    (status ∉ terminalStatuses → ¬ now > expiresAt → status ≠ "PAID" →
      (key, p) ∈ (poll check now ledger).ledger ∧
      p ∉ (poll check now ledger).successes ∧ p ∉ (poll check now ledger).failures) ∧
    (status = "PAID" → ¬ now > expiresAt →
      p ∈ (poll check now ledger).successes ∧ (key, p) ∉ (poll check now ledger).ledger) := by
  refine ⟨?_, ?_, ?_, ?_⟩
  · intro h1
    have hcl : classifyEntry check now p = .failure := by
      simp [classifyEntry, hchk, h1]
    refine ⟨(mem_poll_failures_iff check now ledger p).mpr ⟨key, hmem, hcl⟩, ?_⟩
    intro hin
    rcases ((mem_poll_ledger_iff check now ledger key p).mp hin).2 with h | h <;>
      simp [hcl] at h
  · intro h1 h2
    have hcl : classifyEntry check now p = .failure := by
      simp [classifyEntry, hchk, h1, h2]
    refine ⟨(mem_poll_failures_iff check now ledger p).mpr ⟨key, hmem, hcl⟩, ?_⟩
    intro hin
    rcases ((mem_poll_ledger_iff check now ledger key p).mp hin).2 with h | h <;>
      simp [hcl] at h
  · intro h1 h2 h3
    have hcl : classifyEntry check now p = .pending := by
      simp only [gt_iff_lt, not_lt] at h2
      simp [classifyEntry, hchk, h1, h3, Nat.not_lt.mpr h2]
    refine ⟨(mem_poll_ledger_iff check now ledger key p).mpr ⟨hmem, Or.inl hcl⟩, ?_, ?_⟩
    · intro hin
      obtain ⟨_, _, hcl'⟩ := (mem_poll_successes_iff check now ledger p).mp hin
      rw [hcl] at hcl'
      exact absurd hcl' (by simp)
    · intro hin
      obtain ⟨_, _, hcl'⟩ := (mem_poll_failures_iff check now ledger p).mp hin
      rw [hcl] at hcl'
      exact absurd hcl' (by simp)
  · intro h1 h2
    have hcl : classifyEntry check now p = .success := by
      subst h1
      simp only [gt_iff_lt, not_lt] at h2
      simp [classifyEntry, hchk, terminalStatuses, Nat.not_lt.mpr h2]
    refine ⟨(mem_poll_successes_iff check now ledger p).mpr ⟨key, hmem, hcl⟩, ?_⟩
    intro hin
    rcases ((mem_poll_ledger_iff check now ledger key p).mp hin).2 with h | h <;>
      simp [hcl] at h

/-- Claim C2 witness. -/
theorem poll_entry_classification_witness :
    let p : Payment := { id := "pay_1", code := "br-code-1" }
    let check : String → ProviderReply := fun _ => .ok "PAID" 1000
    p ∈ (poll check 500 [("abacate:payments:pay_1", p)]).successes ∧
    ("abacate:payments:pay_1", p) ∉ (poll check 500 [("abacate:payments:pay_1", p)]).ledger := by
  intro p check
  exact (poll_entry_classification check 500 [("abacate:payments:pay_1", p)]
    "abacate:payments:pay_1" p "PAID" 1000 (by simp) rfl).2.2.2 rfl (by decide)

/-- Claim C9: a per-entry provider failure during `poll` is caught: the
erroring entry stays in the ledger (to be retried on the next cycle), is
reported in neither `successes` nor `failures`, and the remaining entries —
before and after it — are processed exactly as they would be without it. -/
theorem poll_provider_error_isolated (check : String → ProviderReply) (now : Nat)
    (pre post : Ledger) (key : String) (p : Payment)
    (herr : check p.id = .err) :
    (key, p) ∈ (poll check now (pre ++ (key, p) :: post)).ledger ∧
    p ∉ (poll check now (pre ++ (key, p) :: post)).successes ∧
    p ∉ (poll check now (pre ++ (key, p) :: post)).failures ∧
    (poll check now (pre ++ (key, p) :: post)).successes =
      (poll check now (pre ++ post)).successes ∧
    (poll check now (pre ++ (key, p) :: post)).failures =
      (poll check now (pre ++ post)).failures := by
  have hcl : classifyEntry check now p = .errored := by
    simp [classifyEntry, herr]
  refine ⟨?_, ?_, ?_, ?_, ?_⟩
  · exact (mem_poll_ledger_iff check now _ key p).mpr ⟨by simp, Or.inr hcl⟩
  · intro hin
    obtain ⟨_, _, hcl'⟩ := (mem_poll_successes_iff check now _ p).mp hin
    rw [hcl] at hcl'
    exact absurd hcl' (by simp)
  · intro hin
    obtain ⟨_, _, hcl'⟩ := (mem_poll_failures_iff check now _ p).mp hin
    rw [hcl] at hcl'
    exact absurd hcl' (by simp)
  · rw [poll_successes_eq, poll_successes_eq]
    simp [List.filter_append, List.filter_cons, hcl]
  · rw [poll_failures_eq, poll_failures_eq]
    simp [List.filter_append, List.filter_cons, hcl]

/-- Claim C9 witness. -/
theorem poll_provider_error_isolated_witness :
    let p : Payment := { id := "pay_err", code := "br-code-2" }
    let q : Payment := { id := "pay_ok", code := "br-code-3" }
    let check : String → ProviderReply :=
      fun i => if i = "pay_err" then .err else .ok "PAID" 1000
    ("k_err", p) ∈ (poll check 500 [("k_err", p), ("k_ok", q)]).ledger ∧
    (poll check 500 [("k_err", p), ("k_ok", q)]).successes =
      (poll check 500 [("k_ok", q)]).successes := by
  intro p q check
  have h := poll_provider_error_isolated check 500 [] [("k_ok", q)] "k_err" p (by decide)
  exact ⟨h.1, h.2.2.2.1⟩

/-! ## OAuth coordinator (src/services/auth/oauth.ts, class `OAuthManager`)

`fetch` calls are modelled as oracle functions grouped in `FetchEnv`:
per provider, the composite `fetchUser` (token exchange followed by the
profile request) mapping `(code, verifier)` to the parsed profile JSON,
plus GitHub's secondary `GET /user/emails`.  JavaScript falsiness of
string fields (`undefined`, `null` or `''`) is modelled on
`Option String` by `strTruthy`. -/

/-- JavaScript truthiness of a possibly-missing string: `undefined`/`null`
and the empty string are falsy. -/
def strTruthy : Option String → Bool
  | none => false
  | some s => s ≠ ""

/-- JavaScript `a || b` for a possibly-missing string `a` and a string `b`. -/
def jsOr (a : Option String) (b : String) : String :=
  match a with
  | none => b
  | some s => if s = "" then b else s

/-- Cookie key `'oauth_state'`. -/
def STATE_COOKIE_KEY : String := "oauth_state"

/-- Cookie key `'oauth_pkce_verifier'`. -/
def VERIFIER_COOKIE_KEY : String := "oauth_pkce_verifier"

/-- The normalized `OAuthProfile` shape of src/types/types.ts. -/
structure OAuthProfile where
  id : String
  name : String
  email : String
  picture : Option String
  provider : Provider
deriving DecidableEq, Repr

/-- The errors `OAuthManager` throws (by message):
`'OAuth provider ... not configured'`, `'Invalid state parameter'`,
`'Missing PKCE verifier'`, `'Email not available from GitHub profile'`,
`'Discord email not verified'`. -/
inductive OAuthFailure
  | providerNotConfigured (provider : Provider)
  | invalidState
  | missingVerifier
  | noEmailAvailable
  | emailNotVerified
deriving DecidableEq, Repr

/-- Google userinfo response fields used by `handleGoogleOAuth`. -/
structure GoogleRaw where
  sub : String
  name : String
  email : String
  picture : Option String
deriving DecidableEq, Repr

/-- GitHub `/user` response fields used by `handleGitHubOAuth` (`id` is
numeric, `name`/`email` may be null). -/
structure GitHubRaw where
  id : Nat
  login : String
  name : Option String
  email : Option String
  avatar_url : Option String
deriving DecidableEq, Repr

/-- One element of GitHub's `/user/emails` response. -/
structure EmailEntry where
  email : Option String
  primary : Bool
deriving DecidableEq, Repr

/-- Discord `/users/@me` response fields used by `handleDiscordOAuth`. -/
structure DiscordRaw where
  id : String
  username : String
  email : String
  verified : Bool
  avatar : Option String
deriving DecidableEq, Repr

/-- Oracles for the provider HTTP APIs: for each provider, `fetchUser`
(token endpoint + profile endpoint) as a function of `(code, verifier)`,
and GitHub's secondary emails endpoint (thunked: the request happens only
where the code performs it). -/
structure FetchEnv where
  fetchGoogle : String → String → GoogleRaw
  fetchGitHub : String → String → GitHubRaw
  fetchGitHubEmails : Unit → List EmailEntry
  fetchDiscord : String → String → DiscordRaw

/-- `handleGoogleOAuth(code, verifier)`: normalize the userinfo response. -/
def handleGoogleOAuth (env : FetchEnv) (code verifier : String) :
    Except OAuthFailure OAuthProfile :=
  let profile := env.fetchGoogle code verifier
  .ok { id := profile.sub
        name := profile.name
        email := profile.email
        picture := profile.picture
        provider := .google }

/-- The email selection `handleGitHubOAuth` applies to the `/user/emails`
response: `emails.find(e => e.primary) || emails[0]`, then
`primaryEmail?.email`. -/
def githubSelectedEmail (emails : List EmailEntry) : Option String :=
  let primaryEmail :=
    match emails.find? (fun e => e.primary) with
    | some e => some e
    | none => emails.head?
  primaryEmail.bind (fun e => e.email)

/-- `handleGitHubOAuth(code, verifier)`: if the profile carries no email
(`if (!email)`), fetch `/user/emails` and select via `githubSelectedEmail`;
if still no email, throw `'Email not available from GitHub profile'`;
otherwise normalize with `name: profile.name || profile.login` and the
stringified numeric id. -/
def handleGitHubOAuth (env : FetchEnv) (code verifier : String) :
    Except OAuthFailure OAuthProfile :=
  let profile := env.fetchGitHub code verifier
  let email :=
    if strTruthy profile.email then profile.email
    else githubSelectedEmail (env.fetchGitHubEmails ())
  if strTruthy email then
    .ok { id := toString profile.id
          name := jsOr profile.name profile.login
          email := email.getD ""
          picture := profile.avatar_url
          provider := .github }
  else .error .noEmailAvailable

/-- `handleDiscordOAuth(code, verifier)`: throw
`'Discord email not verified'` when `!profile.verified`; otherwise
normalize, building the picture from the CDN template when an avatar hash
is (truthily) present. -/
def handleDiscordOAuth (env : FetchEnv) (code verifier : String) :
    Except OAuthFailure OAuthProfile :=
  let profile := env.fetchDiscord code verifier
  if !profile.verified then .error .emailNotVerified
  else
    .ok { id := profile.id
          name := profile.username
          email := profile.email
          picture :=
            match profile.avatar with
            | some a =>
              if a = "" then none
              else some ("https://cdn.discordapp.com/avatars/" ++ profile.id ++ "/"
                ++ a ++ ".png")
            | none => none
          provider := .discord }

/-- `exchangeCodeForProfile(provider, code, state, getCookie)`:
fail if the provider is not configured; read the stored state and the PKCE
verifier from the caller's cookies (`getCookie` yields `''` for an absent
cookie); throw `'Invalid state parameter'` on a state mismatch, then
`'Missing PKCE verifier'` on a falsy verifier; otherwise dispatch to the
provider-specific handler, which performs the token exchange. -/
def exchangeCodeForProfile (configured : Provider → Bool) (env : FetchEnv)
    (provider : Provider) (code state : String) (getCookie : String → String) :
    Except OAuthFailure OAuthProfile :=
  if !configured provider then .error (.providerNotConfigured provider)
  else
    let storedState := getCookie STATE_COOKIE_KEY
    let verifier := getCookie VERIFIER_COOKIE_KEY
    if state ≠ storedState then .error .invalidState
    else if verifier = "" then .error .missingVerifier
    else
      match provider with
      | .google => handleGoogleOAuth env code verifier
      | .github => handleGitHubOAuth env code verifier
      | .discord => handleDiscordOAuth env code verifier

/-- Claim C3: whenever the presented `state` differs from the one stored in
the caller's cookie, `exchangeCodeForProfile` on a configured provider fails
with `Invalid state parameter`, for every authorization code and every
behaviour of the provider's endpoints — the result does not depend on the
fetch oracles, so no token exchange is attempted. -/
theorem exchange_state_mismatch_invalid_state (configured : Provider → Bool)
    (env : FetchEnv) (provider : Provider) (code state : String)
    (getCookie : String → String)
    (hconf : configured provider = true)
    (hstate : state ≠ getCookie STATE_COOKIE_KEY) :
    exchangeCodeForProfile configured env provider code state getCookie =
      .error .invalidState ∧
    ∀ env' : FetchEnv,
      exchangeCodeForProfile configured env' provider code state getCookie =
        exchangeCodeForProfile configured env provider code state getCookie := by
  have h : ∀ e : FetchEnv,
      exchangeCodeForProfile configured e provider code state getCookie =
        .error .invalidState := by
    intro e
    simp [exchangeCodeForProfile, hconf, hstate]
  exact ⟨h env, fun env' => (h env').trans (h env).symm⟩

/-- Claim C8: a Discord profile with `verified == false` always fails the
exchange with `Discord email not verified`, however complete the profile
otherwise is. -/
theorem discord_unverified_fails (env : FetchEnv) (code verifier : String)
    (hver : (env.fetchDiscord code verifier).verified = false) :
    handleDiscordOAuth env code verifier = .error .emailNotVerified := by
  simp [handleDiscordOAuth, hver]

/-- Claim C7: when the primary GitHub profile carries no (truthy) email, the
exchange selects from the secondary `/user/emails` response the
primary-flagged entry — or, with none flagged, the first — and succeeds with
that email; when that selection yields no usable email either, the exchange
fails with `Email not available from GitHub profile`. -/
theorem github_email_fallback (env : FetchEnv) (code verifier : String)
    (hnoemail : strTruthy (env.fetchGitHub code verifier).email = false) :
    (strTruthy (githubSelectedEmail (env.fetchGitHubEmails ())) = false →
      handleGitHubOAuth env code verifier = .error .noEmailAvailable) ∧
    (∀ em : String, githubSelectedEmail (env.fetchGitHubEmails ()) = some em → em ≠ "" →
      handleGitHubOAuth env code verifier =
        .ok { id := toString (env.fetchGitHub code verifier).id
              name := jsOr (env.fetchGitHub code verifier).name
                (env.fetchGitHub code verifier).login
              email := em
              picture := (env.fetchGitHub code verifier).avatar_url
              provider := .github }) := by
  constructor
  · intro hsel
    simp [handleGitHubOAuth, hnoemail, hsel]
  · intro em hsel hne
    simp only [handleGitHubOAuth, hnoemail, hsel]
    simp [strTruthy, hne]

/-! ## Concrete witnesses -/

/-- A concrete fetch environment: a GitHub profile without an email whose
`/user/emails` response flags `b@x.io` as primary, and a complete Discord
profile with `verified == false`. -/
def sampleEnv : FetchEnv where
  fetchGoogle := fun _ _ => { sub := "g1", name := "G", email := "g@x.io", picture := none }
  fetchGitHub := fun _ _ =>
    { id := 7, login := "octo", name := none, email := none, avatar_url := none }
  fetchGitHubEmails := fun _ =>
    [{ email := some "a@x.io", primary := false }, { email := some "b@x.io", primary := true }]
  fetchDiscord := fun _ _ =>
    { id := "d1", username := "disc", email := "d@x.io", verified := false
      avatar := some "abc" }

/-- Claim C3 witness. -/
theorem exchange_state_mismatch_witness :
    exchangeCodeForProfile (fun _ => true) sampleEnv .google "code" "evil-state"
        (fun _ => "good-state") = .error .invalidState :=
  (exchange_state_mismatch_invalid_state (fun _ => true) sampleEnv .google "code"
    "evil-state" (fun _ => "good-state") rfl (by decide)).1

/-- Claim C7 witness. -/
theorem github_email_fallback_witness :
    handleGitHubOAuth sampleEnv "code" "ver" =
      .ok { id := "7", name := "octo", email := "b@x.io", picture := none
            provider := .github } := by
  simpa using (github_email_fallback sampleEnv "code" "ver" rfl).2 "b@x.io" (by decide)
    (by decide)

/-- Claim C8 witness. -/
theorem discord_unverified_witness :
    handleDiscordOAuth sampleEnv "code" "ver" = .error .emailNotVerified :=
  discord_unverified_fails sampleEnv "code" "ver" rfl

/-- A one-session store holding an active session written at time 5000. -/
def activeStore : SessionStore :=
  (createSession [] 5000 "sess:a1" "u1" .user (some .active)).1

/-- Claim C5 witness. -/
theorem refreshSession_spec_witness :
    getSession (refreshSession activeStore 6000 "sess:a1") 6000 "sess:a1" =
      some { userId := "u1", role := .user, status := .active
             exp := 6000 + sessionTTLms } ∧
    (5000 : Nat) + sessionTTLms < 6000 + sessionTTLms :=
  ⟨((refreshSession_spec activeStore 6000 "sess:a1").2
      { userId := "u1", role := .user, status := .active, exp := 5000 + sessionTTLms }
      (by decide)).1,
    by decide⟩

/-- A one-session store holding a banned admin session written at time 5000. -/
def bannedStore : SessionStore :=
  (createSession [] 5000 "sess:b1" "u2" .admin (some .banned)).1

/-- Claim C1 witness. -/
theorem authMiddleware_banned_witness :
    authMiddleware bannedStore 6000 (some "Bearer sess:b1") =
      (.bannedError "Your account has been banned. Please contact support.", bannedStore) :=
  (authMiddleware_banned_forbidden bannedStore 6000 "Bearer sess:b1" "sess:b1"
    { userId := "u2", role := .admin, status := .banned, exp := 5000 + sessionTTLms }
    (by decide) (by decide) (by decide) rfl).1

/-- A one-session store holding an inactive session written at time 5000. -/
def inactiveStore : SessionStore :=
  (createSession [] 5000 "sess:i1" "u3" .user (some .inactive)).1

/-- Claim C6 witness. -/
theorem inactive_passes_auth_fails_active_witness :
    activeUserMiddleware (authMiddleware inactiveStore 6000 (some "Bearer sess:i1")).2
        6000 "sess:i1" =
      .inactiveError
        "Your account is inactive. You cannot perform this action. Please contact support." :=
  (inactive_passes_auth_fails_active inactiveStore 6000 "Bearer sess:i1" "sess:i1"
    { userId := "u3", role := .user, status := .inactive, exp := 5000 + sessionTTLms }
    (by decide) (by decide) (by decide) rfl).2

end BunMococa
